import Mathlib

/-!
Shallow embedding of the libp2p daemon client (js-libp2p-daemon-client).

The source files modelled here are the current versions of
`src/index.js` (core control client), `src/dht.js` (DHT adapter,
Uint8Array-validated version) and `src/pubsub.js` (CodeError version),
together with the legacy client in the unnamed source part for the
listener bookkeeping.

Wire-schema internals (protobuf encode/decode) are external
collaborators: a frame is modelled as the decoded message it carries,
and a decoder for kind K succeeds exactly on frames of kind K
(decoding anything else, or the end-of-stream marker `undefined`,
throws, modelled as a decode error).  The daemon `StreamHandler`
dependency is modelled as a queue of incoming frames plus a read
counter and a closed flag.
-/

namespace DaemonClient

/-- Response.Type of the daemon protocol envelope. -/
inductive ResponseType
  | OK
  | ERROR
deriving DecidableEq, Repr

/-- ErrorResponse message: the daemon-supplied error description.
`msg` is optional on the wire. -/
structure ErrorResponse where
  msg : Option String
deriving DecidableEq, Repr

/-- Identify payload of an OK envelope. -/
structure IdentifyMsg where
  id : List Nat
  addrs : List (List Nat)
deriving DecidableEq, Repr

/-- PeerInfo-shaped message (peer id bytes plus address byte strings). -/
structure PeerMsg where
  id : List Nat
  addrs : List (List Nat)
deriving DecidableEq, Repr

/-- DHT payload of an OK envelope (single-shot operations). -/
structure DHTPayload where
  value : Option (List Nat)
  peer : Option PeerMsg
deriving DecidableEq, Repr

/-- Pubsub payload of an OK envelope. -/
structure PSPayload where
  topics : List String
deriving DecidableEq, Repr

/-- Top-level Response envelope, first frame of every exchange. -/
structure ResponseMsg where
  type : ResponseType
  error : Option ErrorResponse
  identify : Option IdentifyMsg
  peers : List PeerMsg
  dht : Option DHTPayload
  pubsub : Option PSPayload
deriving DecidableEq, Repr

/-- DHTResponse.Type of the stream-specific DHT messages. -/
inductive DHTType
  | BEGIN
  | VALUE
  | END
deriving DecidableEq, Repr

/-- DHTResponse message: stream-specific frame of a DHT lookup. -/
structure DHTResponseMsg where
  type : DHTType
  peer : Option PeerMsg
  value : Option (List Nat)
deriving DecidableEq, Repr

/-- PSMessage: stream-specific frame of a pubsub subscription. -/
structure PSMessage where
  from_ : List Nat
  data : List Nat
  topicIDs : List String
deriving DecidableEq, Repr

/-- A frame on the wire, identified by the message it decodes to. -/
inductive Frame
  | resp (r : ResponseMsg)
  | dht (d : DHTResponseMsg)
  | ps (m : PSMessage)
deriving DecidableEq, Repr

/-- Machine-readable error codes thrown by the client, plus markers for
errors the JS runtime raises (protobuf decode failures, TypeError on
member access of a missing field). -/
inductive ErrorCode
  | ERR_CONNECT_FAILED
  | ERR_IDENTIFY_FAILED
  | ERR_LIST_PEERS_FAILED
  | ERR_OPEN_STREAM_FAILED
  | ERR_REGISTER_STREAM_HANDLER_FAILED
  | ERR_INVALID_PEER_ID
  | ERR_INVALID_ADDRS_TYPE
  | ERR_NO_MULTIADDR_RECEIVED
  | ERR_INVALID_PROTOCOL
  | ERR_INVALID_MULTIADDR
  | ERR_INVALID_KEY
  | ERR_INVALID_VALUE
  | ERR_INVALID_CID
  | ERR_INVALID_TOPIC
  | ERR_INVALID_DATA
  | ERR_DHT_PUT_FAILED
  | ERR_DHT_GET_FAILED
  | ERR_DHT_FIND_PEER_FAILED
  | ERR_DHT_PROVIDE_FAILED
  | ERR_DHT_FIND_PROVIDERS_FAILED
  | ERR_DHT_GET_PUBLIC_KEY_FAILED
  | ERR_UNEXPECTED_MESSAGE_RECEIVED
  | ERR_PUBSUB_GET_TOPICS_FAILED
  | ERR_PUBSUB_PUBLISH_FAILED
  | DECODE_FAILED
  | TYPE_ERROR
deriving DecidableEq, Repr

/-- An error surfaced to the caller: code plus message. -/
structure ClientError where
  code : ErrorCode
  msg : String
deriving DecidableEq, Repr

/-- The StreamHandler wrapping one connection: queue of incoming frames
not yet read, count of completed reads, and whether close() was called. -/
structure SH where
  frames : List Frame
  reads : Nat
  closed : Bool
deriving DecidableEq, Repr

/-- sh.read(): pop the next frame (FIFO); `none` models the
end-of-stream marker when the connection has no more frames. -/
def SH.read : SH → Option Frame × SH
  | ⟨[], n, c⟩ => (none, ⟨[], n + 1, c⟩)
  | ⟨f :: rest, n, c⟩ => (some f, ⟨rest, n + 1, c⟩)

/-- sh.close(): release the connection (idempotent). -/
def SH.close (sh : SH) : SH :=
  { sh with closed := true }

/-- Response.decode applied to the result of a read: decoding the
end-of-stream marker or a frame of another kind throws. -/
def decodeResponse : Option Frame → Except ClientError ResponseMsg
  | some (Frame.resp r) => Except.ok r
  | _ => Except.error ⟨ErrorCode.DECODE_FAILED, "protobuf decode failed"⟩

/-- DHTResponse.decode applied to the result of a read. -/
def decodeDHTResponse : Option Frame → Except ClientError DHTResponseMsg
  | some (Frame.dht d) => Except.ok d
  | _ => Except.error ⟨ErrorCode.DECODE_FAILED, "protobuf decode failed"⟩

/-- PSMessage.decode applied to the result of a read. -/
def decodePSMessage : Option Frame → Except ClientError PSMessage
  | some (Frame.ps m) => Except.ok m
  | _ => Except.error ⟨ErrorCode.DECODE_FAILED, "protobuf decode failed"⟩

/-- JS `new Error(response.error.msg)` with code attached: accessing
`.msg` on a missing `error` field raises a TypeError instead of the
coded error. -/
def codedError (code : ErrorCode) (r : ResponseMsg) : ClientError :=
  match r.error with
  | none => ⟨ErrorCode.TYPE_ERROR, "Cannot read properties of undefined"⟩
  | some e => ⟨code, e.msg.getD ""⟩

/-- JavaScript argument values, as far as the client validations
discriminate them (instanceof Uint8Array, typeof string, PeerId.isPeerId,
CID.isCID, Multiaddr.isMultiaddr, Array.isArray). -/
inductive JsVal
  | bytes (b : List Nat)
  | str (s : String)
  | num (n : Int)
  | peerId (id : List Nat)
  | cid (c : List Nat)
  | addr (a : String)
  | arr (xs : List JsVal)
  | nullV
deriving Repr

/-- `x instanceof Uint8Array`. -/
def JsVal.isBytes : JsVal → Bool
  | JsVal.bytes _ => true
  | _ => false

/-- `PeerID.isPeerId(x)`. -/
def JsVal.isPeerId : JsVal → Bool
  | JsVal.peerId _ => true
  | _ => false

/-- `CID.isCID(x)`. -/
def JsVal.isCID : JsVal → Bool
  | JsVal.cid _ => true
  | _ => false

/-- `typeof x === 'string'`. -/
def JsVal.isString : JsVal → Bool
  | JsVal.str _ => true
  | _ => false

/-- `multiaddr.isMultiaddr(x)`. -/
def JsVal.isMultiaddr : JsVal → Bool
  | JsVal.addr _ => true
  | _ => false

/-- Request.Type discriminant of the top-level request. -/
inductive RequestType
  | CONNECT
  | IDENTIFY
  | LIST_PEERS
  | STREAM_OPEN
  | STREAM_HANDLER
  | DHT
  | PUBSUB
deriving DecidableEq, Repr

/-- DHTRequest.Type discriminant. -/
inductive DHTRequestType
  | PUT_VALUE
  | GET_VALUE
  | FIND_PEER
  | PROVIDE
  | FIND_PROVIDERS
  | GET_CLOSEST_PEERS
  | GET_PUBLIC_KEY
deriving DecidableEq, Repr

/-- PSRequest.Type discriminant. -/
inductive PSRequestType
  | GET_TOPICS
  | PUBLISH
  | SUBSCRIBE
deriving DecidableEq, Repr

/-- DHTRequest payload as built by the DHT adapter. -/
structure DHTRequestMsg where
  type : DHTRequestType
  key : Option (List Nat)
  value : Option (List Nat)
  peer : Option (List Nat)
  cid : Option (List Nat)
  count : Option Nat
deriving DecidableEq, Repr

/-- PSRequest payload as built by the pubsub adapter. -/
structure PSRequestMsg where
  type : PSRequestType
  topic : Option String
  data : Option (List Nat)
deriving DecidableEq, Repr

/-- ConnectRequest payload. -/
structure ConnectReq where
  peer : List Nat
  addrs : List String
deriving DecidableEq, Repr

/-- StreamOpenRequest payload. -/
structure StreamOpenReq where
  peer : List Nat
  proto : List String
deriving DecidableEq, Repr

/-- StreamHandlerRequest payload. -/
structure StreamHandlerReq where
  addr : String
  proto : List String
deriving DecidableEq, Repr

/-- The plain request object handed to `client.send`. -/
structure RequestMsg where
  type : RequestType
  connect : Option ConnectReq
  streamOpen : Option StreamOpenReq
  streamHandler : Option StreamHandlerReq
  dht : Option DHTRequestMsg
  pubsub : Option PSRequestMsg
deriving DecidableEq, Repr

/-- Build a request with only the mandatory discriminant populated. -/
def mkRequest (t : RequestType) : RequestMsg :=
  ⟨t, none, none, none, none, none⟩

/-- Outcome of one client call: the result (or error), the request that
was dispatched (`none` when validation failed before any connection was
opened), and the final StreamHandler state (`none` likewise). -/
structure OpRun (α : Type) where
  result : Except ClientError α
  request : Option RequestMsg
  sh : Option SH
deriving Repr

/-- `client.send(request)`: dial a fresh connection, write one encoded
request frame, and return a StreamHandler positioned to read the
daemon's frames.  The daemon's frames on that connection are the
`incoming` parameter of each modelled operation. -/
def send (incoming : List Frame) : SH :=
  ⟨incoming, 0, false⟩

/-- JS in `connect`: `const errResponse = response.error || \x7b\x7d` then
`errResponse.msg || 'unspecified'`; an absent error field, an absent msg
field and an empty msg string are all falsy. -/
def connectErrorMsg (r : ResponseMsg) : String :=
  let m := (r.error.bind ErrorResponse.msg).getD ""
  if m = "" then "unspecified" else m

/-- Multiaddr byte-string carried by a multiaddr-typed argument. -/
def multiaddrBytes : JsVal → Option String
  | JsVal.addr a => some a
  | _ => none

namespace Client

/-- `client.connect(peerId, addrs)` from src/index.js lines 83-118:
validate inputs, dispatch a CONNECT request, read one envelope;
a missing response or an ERROR envelope raises ERR_CONNECT_FAILED,
and the handle is closed only on the OK path. -/
def connect (peerId addrs : JsVal) (incoming : List Frame) : OpRun Unit :=
  match peerId with
  | JsVal.peerId pid =>
    match addrs with
    | JsVal.arr xs =>
      if xs.all JsVal.isMultiaddr then
        let req := { mkRequest RequestType.CONNECT with
          connect := some ⟨pid, xs.filterMap multiaddrBytes⟩ }
        match SH.read (send incoming) with
        | (none, sh₁) =>
          ⟨Except.error ⟨ErrorCode.ERR_CONNECT_FAILED, "unspecified"⟩, some req, some sh₁⟩
        | (some f, sh₁) =>
          match decodeResponse (some f) with
          | Except.error e => ⟨Except.error e, some req, some sh₁⟩
          | Except.ok r =>
            if r.type = ResponseType.OK then
              ⟨Except.ok (), some req, some sh₁.close⟩
            else
              ⟨Except.error ⟨ErrorCode.ERR_CONNECT_FAILED, connectErrorMsg r⟩,
               some req, some sh₁⟩
      else
        ⟨Except.error ⟨ErrorCode.ERR_NO_MULTIADDR_RECEIVED,
          "received an address that is not a multiaddr"⟩, none, none⟩
    | _ =>
      ⟨Except.error ⟨ErrorCode.ERR_INVALID_ADDRS_TYPE,
        "addrs received are not in an array"⟩, none, none⟩
  | _ =>
    ⟨Except.error ⟨ErrorCode.ERR_INVALID_PEER_ID, "invalid peer id received"⟩, none, none⟩

/-- `client.identify()` from src/index.js lines 130-148: dispatch an
IDENTIFY request, read one envelope; an ERROR envelope raises
ERR_IDENTIFY_FAILED without closing the handle; on OK the payload is
decoded and the handle closed. -/
def identify (incoming : List Frame) : OpRun (List Nat × List (List Nat)) :=
  let req := mkRequest RequestType.IDENTIFY
  match SH.read (send incoming) with
  | (m, sh₁) =>
    match decodeResponse m with
    | Except.error e => ⟨Except.error e, some req, some sh₁⟩
    | Except.ok r =>
      if r.type = ResponseType.OK then
        match r.identify with
        | none =>
          ⟨Except.error ⟨ErrorCode.TYPE_ERROR, "Cannot read properties of undefined"⟩,
           some req, some sh₁⟩
        | some idn => ⟨Except.ok (idn.id, idn.addrs), some req, some sh₁.close⟩
      else
        ⟨Except.error (codedError ErrorCode.ERR_IDENTIFY_FAILED r), some req, some sh₁⟩

/-- `client.listPeers()` from src/index.js lines 154-169: dispatch a
LIST_PEERS request, read one envelope; an ERROR envelope raises
ERR_LIST_PEERS_FAILED without closing the handle; on OK the handle is
closed and the peer ids are returned. -/
def listPeers (incoming : List Frame) : OpRun (List (List Nat)) :=
  let req := mkRequest RequestType.LIST_PEERS
  match SH.read (send incoming) with
  | (m, sh₁) =>
    match decodeResponse m with
    | Except.error e => ⟨Except.error e, some req, some sh₁⟩
    | Except.ok r =>
      if r.type = ResponseType.OK then
        ⟨Except.ok (r.peers.map PeerMsg.id), some req, some sh₁.close⟩
      else
        ⟨Except.error (codedError ErrorCode.ERR_LIST_PEERS_FAILED r), some req, some sh₁⟩

/-- `client.openStream(peerId, protocol)` from src/index.js lines
177-203: validate inputs, dispatch STREAM_OPEN, read one envelope; on a
non-OK envelope the handle is closed and ERR_OPEN_STREAM_FAILED raised;
on OK `sh.rest()` detaches and returns the remaining raw bytes of the
connection and the handle is not closed. -/
def openStream (peerId protocol : JsVal) (incoming : List Frame) : OpRun (List Frame) :=
  match peerId with
  | JsVal.peerId pid =>
    match protocol with
    | JsVal.str proto =>
      let req := { mkRequest RequestType.STREAM_OPEN with
        streamOpen := some ⟨pid, [proto]⟩ }
      match SH.read (send incoming) with
      | (m, sh₁) =>
        match decodeResponse m with
        | Except.error e => ⟨Except.error e, some req, some sh₁⟩
        | Except.ok r =>
          if r.type = ResponseType.OK then
            ⟨Except.ok sh₁.frames, some req, some sh₁⟩
          else
            ⟨Except.error (codedError ErrorCode.ERR_OPEN_STREAM_FAILED r),
             some req, some sh₁.close⟩
    | _ =>
      ⟨Except.error ⟨ErrorCode.ERR_INVALID_PROTOCOL, "invalid protocol received"⟩, none, none⟩
  | _ =>
    ⟨Except.error ⟨ErrorCode.ERR_INVALID_PEER_ID, "invalid peer id received"⟩, none, none⟩

/-- `client.registerStreamHandler(addr, protocol)` from src/index.js
lines 211-237: validate inputs, dispatch STREAM_HANDLER, read one
envelope, close the handle, then raise
ERR_REGISTER_STREAM_HANDLER_FAILED if the envelope was not OK. -/
def registerStreamHandler (addr protocol : JsVal) (incoming : List Frame) : OpRun Unit :=
  match addr with
  | JsVal.addr a =>
    match protocol with
    | JsVal.str proto =>
      let req := { mkRequest RequestType.STREAM_HANDLER with
        streamHandler := some ⟨a, [proto]⟩ }
      match SH.read (send incoming) with
      | (m, sh₁) =>
        match decodeResponse m with
        | Except.error e => ⟨Except.error e, some req, some sh₁⟩
        | Except.ok r =>
          let sh₂ := sh₁.close
          if r.type = ResponseType.OK then
            ⟨Except.ok (), some req, some sh₂⟩
          else
            ⟨Except.error (codedError ErrorCode.ERR_REGISTER_STREAM_HANDLER_FAILED r),
             some req, some sh₂⟩
    | _ =>
      ⟨Except.error ⟨ErrorCode.ERR_INVALID_PROTOCOL, "invalid protocol received"⟩, none, none⟩
  | _ =>
    ⟨Except.error ⟨ErrorCode.ERR_INVALID_MULTIADDR, "invalid multiaddr received"⟩, none, none⟩

end Client

/-- Result shape yielded by the DHT streaming operations
(`\x7b id, addrs \x7d` built from a stream VALUE frame). -/
structure PeerInfo where
  id : List Nat
  addrs : List (List Nat)
deriving DecidableEq, Repr

/-- Run of a streaming DHT operation: the dispatched request, the
values yielded so far, the completion outcome (`Except.ok ()` when the
generator returned cleanly) and the final handle state. -/
structure StreamRun where
  request : Option RequestMsg
  yielded : List PeerInfo
  outcome : Except ClientError Unit
  sh : Option SH
deriving Repr

namespace DHT

/-- `dht.put(key, value)` from src/dht.js lines 661-687 (current
version): validate that key and value are Uint8Array before any
connection is opened, dispatch a DHT/PUT_VALUE request, read one
envelope, close the handle, then raise ERR_DHT_PUT_FAILED if the
envelope was not OK. -/
def put (key value : JsVal) (incoming : List Frame) : OpRun Unit :=
  match key with
  | JsVal.bytes kb =>
    match value with
    | JsVal.bytes vb =>
      let req := { mkRequest RequestType.DHT with
        dht := some ⟨DHTRequestType.PUT_VALUE, some kb, some vb, none, none, none⟩ }
      match SH.read (send incoming) with
      | (m, sh₁) =>
        match decodeResponse m with
        | Except.error e => ⟨Except.error e, some req, some sh₁⟩
        | Except.ok r =>
          let sh₂ := sh₁.close
          if r.type = ResponseType.OK then
            ⟨Except.ok (), some req, some sh₂⟩
          else
            ⟨Except.error (codedError ErrorCode.ERR_DHT_PUT_FAILED r), some req, some sh₂⟩
    | _ =>
      ⟨Except.error ⟨ErrorCode.ERR_INVALID_VALUE, "value received is not a Uint8Array"⟩,
       none, none⟩
  | _ =>
    ⟨Except.error ⟨ErrorCode.ERR_INVALID_KEY, "invalid key received"⟩, none, none⟩

/-- `dht.get(key)` from src/dht.js lines 695-718: validate the key,
dispatch DHT/GET_VALUE, read one envelope, close the handle, then
raise ERR_DHT_GET_FAILED if not OK, else return the dht payload value. -/
def get (key : JsVal) (incoming : List Frame) : OpRun (Option (List Nat)) :=
  match key with
  | JsVal.bytes kb =>
    let req := { mkRequest RequestType.DHT with
      dht := some ⟨DHTRequestType.GET_VALUE, some kb, none, none, none, none⟩ }
    match SH.read (send incoming) with
    | (m, sh₁) =>
      match decodeResponse m with
      | Except.error e => ⟨Except.error e, some req, some sh₁⟩
      | Except.ok r =>
        let sh₂ := sh₁.close
        if r.type = ResponseType.OK then
          match r.dht with
          | none =>
            ⟨Except.error ⟨ErrorCode.TYPE_ERROR, "Cannot read properties of undefined"⟩,
             some req, some sh₂⟩
          | some d => ⟨Except.ok d.value, some req, some sh₂⟩
        else
          ⟨Except.error (codedError ErrorCode.ERR_DHT_GET_FAILED r), some req, some sh₂⟩
  | _ =>
    ⟨Except.error ⟨ErrorCode.ERR_INVALID_KEY, "invalid key received"⟩, none, none⟩

/-- `dht.findPeer(peerId)` from src/dht.js lines 726-752: validate the
peer id, dispatch DHT/FIND_PEER, read one envelope, close the handle,
then raise ERR_DHT_FIND_PEER_FAILED if not OK, else return the peer
info from the dht payload. -/
def findPeer (peerId : JsVal) (incoming : List Frame) : OpRun PeerInfo :=
  match peerId with
  | JsVal.peerId pid =>
    let req := { mkRequest RequestType.DHT with
      dht := some ⟨DHTRequestType.FIND_PEER, none, none, some pid, none, none⟩ }
    match SH.read (send incoming) with
    | (m, sh₁) =>
      match decodeResponse m with
      | Except.error e => ⟨Except.error e, some req, some sh₁⟩
      | Except.ok r =>
        let sh₂ := sh₁.close
        if r.type = ResponseType.OK then
          match r.dht.bind DHTPayload.peer with
          | none =>
            ⟨Except.error ⟨ErrorCode.TYPE_ERROR, "Cannot read properties of undefined"⟩,
             some req, some sh₂⟩
          | some p => ⟨Except.ok ⟨p.id, p.addrs⟩, some req, some sh₂⟩
        else
          ⟨Except.error (codedError ErrorCode.ERR_DHT_FIND_PEER_FAILED r), some req, some sh₂⟩
  | _ =>
    ⟨Except.error ⟨ErrorCode.ERR_INVALID_PEER_ID, "invalid peer id received"⟩, none, none⟩

/-- `dht.provide(cid)` from src/dht.js lines 759-780: validate the cid,
dispatch DHT/PROVIDE, read one envelope, close the handle, then raise
ERR_DHT_PROVIDE_FAILED if not OK. -/
def provide (cid : JsVal) (incoming : List Frame) : OpRun Unit :=
  match cid with
  | JsVal.cid c =>
    let req := { mkRequest RequestType.DHT with
      dht := some ⟨DHTRequestType.PROVIDE, none, none, none, some c, none⟩ }
    match SH.read (send incoming) with
    | (m, sh₁) =>
      match decodeResponse m with
      | Except.error e => ⟨Except.error e, some req, some sh₁⟩
      | Except.ok r =>
        let sh₂ := sh₁.close
        if r.type = ResponseType.OK then
          ⟨Except.ok (), some req, some sh₂⟩
        else
          ⟨Except.error (codedError ErrorCode.ERR_DHT_PROVIDE_FAILED r), some req, some sh₂⟩
  | _ =>
    ⟨Except.error ⟨ErrorCode.ERR_INVALID_CID, "invalid cid received"⟩, none, none⟩

/-- `dht.getPublicKey(peerId)` from src/dht.js lines 894-917: validate
the peer id, dispatch DHT/GET_PUBLIC_KEY, read one envelope, close the
handle, then raise ERR_DHT_GET_PUBLIC_KEY_FAILED if not OK, else
return the dht payload value. -/
def getPublicKey (peerId : JsVal) (incoming : List Frame) : OpRun (Option (List Nat)) :=
  match peerId with
  | JsVal.peerId pid =>
    let req := { mkRequest RequestType.DHT with
      dht := some ⟨DHTRequestType.GET_PUBLIC_KEY, none, none, some pid, none, none⟩ }
    match SH.read (send incoming) with
    | (m, sh₁) =>
      match decodeResponse m with
      | Except.error e => ⟨Except.error e, some req, some sh₁⟩
      | Except.ok r =>
        let sh₂ := sh₁.close
        if r.type = ResponseType.OK then
          match r.dht with
          | none =>
            ⟨Except.error ⟨ErrorCode.TYPE_ERROR, "Cannot read properties of undefined"⟩,
             some req, some sh₂⟩
          | some d => ⟨Except.ok d.value, some req, some sh₂⟩
        else
          ⟨Except.error (codedError ErrorCode.ERR_DHT_GET_PUBLIC_KEY_FAILED r),
           some req, some sh₂⟩
  | _ =>
    ⟨Except.error ⟨ErrorCode.ERR_INVALID_PEER_ID, "invalid peer id received"⟩, none, none⟩

/-- The `while (true)` body of `dht.findProviders` (src/dht.js lines
813-835): read a frame, decode it as DHTResponse; END closes the
handle and returns cleanly, VALUE yields one peer info, any other kind
closes the handle and raises ERR_UNEXPECTED_MESSAGE_RECEIVED; reading
past the end of the connection makes the decode throw. -/
def findProvidersLoop (frames : List Frame) (acc : List PeerInfo) (reads : Nat) :
    List PeerInfo × Except ClientError Unit × SH :=
  match frames with
  | [] =>
    (acc, Except.error ⟨ErrorCode.DECODE_FAILED, "protobuf decode failed"⟩,
     ⟨[], reads + 1, false⟩)
  | f :: rest =>
    match decodeDHTResponse (some f) with
    | Except.error e => (acc, Except.error e, ⟨rest, reads + 1, false⟩)
    | Except.ok d =>
      if d.type = DHTType.END then
        (acc, Except.ok (), SH.close ⟨rest, reads + 1, false⟩)
      else if d.type = DHTType.VALUE then
        match d.peer with
        | none =>
          (acc, Except.error ⟨ErrorCode.TYPE_ERROR, "Cannot read properties of undefined"⟩,
           ⟨rest, reads + 1, false⟩)
        | some p => findProvidersLoop rest (acc ++ [⟨p.id, p.addrs⟩]) (reads + 1)
      else
        (acc,
         Except.error ⟨ErrorCode.ERR_UNEXPECTED_MESSAGE_RECEIVED, "unexpected message received"⟩,
         SH.close ⟨rest, reads + 1, false⟩)

/-- `dht.findProviders(cid, count)` from src/dht.js lines 789-835:
validate the cid, dispatch DHT/FIND_PROVIDERS carrying the cid bytes
and the count, read the initial envelope (ERROR closes the handle and
raises ERR_DHT_FIND_PROVIDERS_FAILED), then run the streaming loop. -/
def findProviders (cid : JsVal) (count : Nat) (incoming : List Frame) : StreamRun :=
  match cid with
  | JsVal.cid c =>
    let req := { mkRequest RequestType.DHT with
      dht := some ⟨DHTRequestType.FIND_PROVIDERS, none, none, none, some c, some count⟩ }
    match SH.read (send incoming) with
    | (m, sh₁) =>
      match decodeResponse m with
      | Except.error e => ⟨some req, [], Except.error e, some sh₁⟩
      | Except.ok r =>
        if r.type = ResponseType.OK then
          match findProvidersLoop sh₁.frames [] sh₁.reads with
          | (ys, out, shF) => ⟨some req, ys, out, some shF⟩
        else
          ⟨some req, [],
           Except.error (codedError ErrorCode.ERR_DHT_FIND_PROVIDERS_FAILED r),
           some sh₁.close⟩
  | _ =>
    ⟨none, [], Except.error ⟨ErrorCode.ERR_INVALID_CID, "invalid cid received"⟩, none⟩

/-- The `while (true)` body of `dht.getClosestPeers` (src/dht.js lines
865-885): like the findProviders loop but a VALUE frame carries the
peer id in the `value` field and the yielded info has no addresses. -/
def getClosestPeersLoop (frames : List Frame) (acc : List PeerInfo) (reads : Nat) :
    List PeerInfo × Except ClientError Unit × SH :=
  match frames with
  | [] =>
    (acc, Except.error ⟨ErrorCode.DECODE_FAILED, "protobuf decode failed"⟩,
     ⟨[], reads + 1, false⟩)
  | f :: rest =>
    match decodeDHTResponse (some f) with
    | Except.error e => (acc, Except.error e, ⟨rest, reads + 1, false⟩)
    | Except.ok d =>
      if d.type = DHTType.END then
        (acc, Except.ok (), SH.close ⟨rest, reads + 1, false⟩)
      else if d.type = DHTType.VALUE then
        match d.value with
        | none =>
          (acc, Except.error ⟨ErrorCode.TYPE_ERROR, "invalid peer id bytes"⟩,
           ⟨rest, reads + 1, false⟩)
        | some v => getClosestPeersLoop rest (acc ++ [⟨v, []⟩]) (reads + 1)
      else
        (acc,
         Except.error ⟨ErrorCode.ERR_UNEXPECTED_MESSAGE_RECEIVED, "unexpected message received"⟩,
         SH.close ⟨rest, reads + 1, false⟩)

/-- `dht.getClosestPeers(key)` from src/dht.js lines 843-886: validate
that the key is a Uint8Array, dispatch DHT/GET_CLOSEST_PEERS, read the
initial envelope (ERROR closes the handle and raises, with the
copy-pasted code ERR_DHT_FIND_PROVIDERS_FAILED as in the source line
862), then run the streaming loop. -/
def getClosestPeers (key : JsVal) (incoming : List Frame) : StreamRun :=
  match key with
  | JsVal.bytes kb =>
    let req := { mkRequest RequestType.DHT with
      dht := some ⟨DHTRequestType.GET_CLOSEST_PEERS, some kb, none, none, none, none⟩ }
    match SH.read (send incoming) with
    | (m, sh₁) =>
      match decodeResponse m with
      | Except.error e => ⟨some req, [], Except.error e, some sh₁⟩
      | Except.ok r =>
        if r.type = ResponseType.OK then
          match getClosestPeersLoop sh₁.frames [] sh₁.reads with
          | (ys, out, shF) => ⟨some req, ys, out, some shF⟩
        else
          ⟨some req, [],
           Except.error (codedError ErrorCode.ERR_DHT_FIND_PROVIDERS_FAILED r),
           some sh₁.close⟩
  | _ =>
    ⟨none, [], Except.error ⟨ErrorCode.ERR_INVALID_KEY, "invalid key received"⟩, none⟩

end DHT

/-- Run of a `subscribe` call up to the point where the streaming
generator is handed to the caller: `result = Except.ok ()` means the
generator was returned. -/
structure SubscribeRun where
  request : Option RequestMsg
  result : Except ClientError Unit
  sh : Option SH
deriving Repr

/-- Run of the subscription generator: messages yielded, completion
outcome (`Except.ok ()` would be a graceful end of the sequence) and
the final handle state. -/
structure GenRun where
  yielded : List PSMessage
  outcome : Except ClientError Unit
  sh : SH
deriving Repr

namespace Pubsub

/-- `pubsub.getTopics()` from src/pubsub.js lines 141-159 (current
version): dispatch PUBSUB/GET_TOPICS, read one envelope, close the
handle, then raise ERR_PUBSUB_GET_TOPICS_FAILED if not OK, else return
the topic list. -/
def getTopics (incoming : List Frame) : OpRun (List String) :=
  let req := { mkRequest RequestType.PUBSUB with
    pubsub := some ⟨PSRequestType.GET_TOPICS, none, none⟩ }
  match SH.read (send incoming) with
  | (m, sh₁) =>
    match decodeResponse m with
    | Except.error e => ⟨Except.error e, some req, some sh₁⟩
    | Except.ok r =>
      let sh₂ := sh₁.close
      if r.type = ResponseType.OK then
        match r.pubsub with
        | none =>
          ⟨Except.error ⟨ErrorCode.TYPE_ERROR, "Cannot read properties of undefined"⟩,
           some req, some sh₂⟩
        | some p => ⟨Except.ok p.topics, some req, some sh₂⟩
      else
        ⟨Except.error (codedError ErrorCode.ERR_PUBSUB_GET_TOPICS_FAILED r),
         some req, some sh₂⟩

/-- `pubsub.publish(topic, data)` from src/pubsub.js lines 167-193:
validate that topic is a string and data a Uint8Array, dispatch
PUBSUB/PUBLISH, read one envelope, close the handle, then raise
ERR_PUBSUB_PUBLISH_FAILED if not OK. -/
def publish (topic data : JsVal) (incoming : List Frame) : OpRun Unit :=
  match topic with
  | JsVal.str t =>
    match data with
    | JsVal.bytes db =>
      let req := { mkRequest RequestType.PUBSUB with
        pubsub := some ⟨PSRequestType.PUBLISH, some t, some db⟩ }
      match SH.read (send incoming) with
      | (m, sh₁) =>
        match decodeResponse m with
        | Except.error e => ⟨Except.error e, some req, some sh₁⟩
        | Except.ok r =>
          let sh₂ := sh₁.close
          if r.type = ResponseType.OK then
            ⟨Except.ok (), some req, some sh₂⟩
          else
            ⟨Except.error (codedError ErrorCode.ERR_PUBSUB_PUBLISH_FAILED r),
             some req, some sh₂⟩
    | _ =>
      ⟨Except.error ⟨ErrorCode.ERR_INVALID_DATA, "data received is not a Uint8Array"⟩,
       none, none⟩
  | _ =>
    ⟨Except.error ⟨ErrorCode.ERR_INVALID_TOPIC, "invalid topic received"⟩, none, none⟩

/-- `pubsub.subscribe(topic)` from src/pubsub.js lines 201-229:
validate the topic, dispatch PUBSUB/SUBSCRIBE, read the initial
envelope; a non-OK envelope raises a CodeError whose code is the
literal 'ERR_PUBSUB_PUBLISH_FAILED' written at source line 218, without
closing the handle; on OK the streaming generator over the handle is
returned. -/
def subscribe (topic : JsVal) (incoming : List Frame) : SubscribeRun :=
  match topic with
  | JsVal.str t =>
    let req := { mkRequest RequestType.PUBSUB with
      pubsub := some ⟨PSRequestType.SUBSCRIBE, some t, none⟩ }
    match SH.read (send incoming) with
    | (m, sh₁) =>
      match decodeResponse m with
      | Except.error e => ⟨some req, Except.error e, some sh₁⟩
      | Except.ok r =>
        if r.type = ResponseType.OK then
          ⟨some req, Except.ok (), some sh₁⟩
        else
          ⟨some req, Except.error (codedError ErrorCode.ERR_PUBSUB_PUBLISH_FAILED r),
           some sh₁⟩
  | _ =>
    ⟨none, Except.error ⟨ErrorCode.ERR_INVALID_TOPIC, "invalid topic received"⟩, none⟩

/-- The `while (true)` body of the generator returned by
`pubsub.subscribe` (src/pubsub.js lines 222-228): every iteration
unconditionally reads one frame and decodes it as a PSMessage before
yielding; there is no END handling, no close and no return, so when
the connection is exhausted the decode of the end-of-stream marker
throws. -/
def subscribeGenLoop (frames : List Frame) (acc : List PSMessage) (reads : Nat) : GenRun :=
  match frames with
  | [] =>
    ⟨acc, Except.error ⟨ErrorCode.DECODE_FAILED, "protobuf decode failed"⟩,
     ⟨[], reads + 1, false⟩⟩
  | f :: rest =>
    match decodePSMessage (some f) with
    | Except.error e => ⟨acc, Except.error e, ⟨rest, reads + 1, false⟩⟩
    | Except.ok msg => subscribeGenLoop rest (acc ++ [msg]) (reads + 1)

/-- Full consumption of the generator returned by `subscribe`,
starting from the handle state left after the initial envelope. -/
def subscribeGen (sh : SH) : GenRun :=
  subscribeGenLoop sh.frames [] sh.reads

end Pubsub

/-- Operations on a client that affect the inbound listener:
`client.start(addr, handler)` and `client.close()` from src/index.js
lines 45-53 and 73-76 (`registerStreamHandler` performs only a
request/response exchange and touches no listener).  A `start` is
identified by the id of the listener it creates. -/
inductive ListenerOp
  | start (id : Nat)
  | close
  | registerStreamHandler
deriving DecidableEq, Repr

/-- Listener bookkeeping of a client: `tracked` is the `this.listener`
field, `running` the listeners actually listening at the transport
(a started listener keeps listening until something closes it, whether
or not a field still references it). -/
structure ClientListeners where
  tracked : Option Nat
  running : List Nat
deriving DecidableEq, Repr

/-- `client.close()`: `this.listener && await this.listener.close();
this.listener = null` — stops the tracked listener, if any. -/
def closeClient (st : ClientListeners) : ClientListeners :=
  match st.tracked with
  | none => ⟨none, st.running⟩
  | some l => ⟨none, st.running.filter (· ≠ l)⟩

/-- `client.start(addr, handler)`: `if (this.listener) await
this.close()`, then create a fresh listener and listen.  The legacy
client's `startServer` (unnamed part, lines 60-75) follows the same
guard with `this.server`/`stopServer`. -/
def startClient (st : ClientListeners) (id : Nat) : ClientListeners :=
  let st₁ := if st.tracked.isSome then closeClient st else st
  ⟨some id, st₁.running ++ [id]⟩

/-- One listener-relevant client operation. -/
def stepListener (st : ClientListeners) : ListenerOp → ClientListeners
  | ListenerOp.start id => startClient st id
  | ListenerOp.close => closeClient st
  | ListenerOp.registerStreamHandler => st

/-- A freshly constructed client has no listener. -/
def initListeners : ClientListeners :=
  ⟨none, []⟩

/-- State reached after a sequence of listener operations. -/
def runListenerOps (ops : List ListenerOp) : ClientListeners :=
  ops.foldl stepListener initListeners

/-- Whether an operation result is an error that was surfaced. -/
def isError {α : Type} : Except ClientError α → Bool
  | Except.error _ => true
  | Except.ok _ => false

/-- Concrete ERROR envelope carrying the daemon message "boom". -/
def errEnv : ResponseMsg :=
  ⟨ResponseType.ERROR, some ⟨some "boom"⟩, none, [], none, none⟩

/-- Concrete OK envelope with no payload. -/
def okEnv : ResponseMsg :=
  ⟨ResponseType.OK, none, none, [], none, none⟩

/-- Concrete VALUE frame of a DHT stream carrying peer id bytes `[i]`. -/
def valFrame (i : Nat) : Frame :=
  Frame.dht ⟨DHTType.VALUE, some ⟨[i], []⟩, none⟩

/-- Concrete END frame of a DHT stream. -/
def endFrame : Frame :=
  Frame.dht ⟨DHTType.END, none, none⟩

end DaemonClient

namespace DaemonClient

/-- Claim C2: a findProviders run over [OK envelope, VALUE, VALUE, END]
followed by any trailing frames yields exactly the two peer infos,
completes without error, closes the handle on END (closed = true), and
never reads a frame positioned after END (exactly 4 reads; the
trailing frames are still queued on the final handle). -/
theorem findProviders_end_clean
    (c : List Nat) (count : Nat) (r : ResponseMsg) (p₁ p₂ : PeerMsg) (trailing : List Frame)
    (hOK : r.type = ResponseType.OK) :
    DHT.findProviders (JsVal.cid c) count
        (Frame.resp r :: Frame.dht ⟨DHTType.VALUE, some p₁, none⟩ ::
         Frame.dht ⟨DHTType.VALUE, some p₂, none⟩ ::
         Frame.dht ⟨DHTType.END, none, none⟩ :: trailing) =
      ⟨some { mkRequest RequestType.DHT with
          dht := some ⟨DHTRequestType.FIND_PROVIDERS, none, none, none, some c, some count⟩ },
       [⟨p₁.id, p₁.addrs⟩, ⟨p₂.id, p₂.addrs⟩],
       Except.ok (),
       some ⟨trailing, 4, true⟩⟩ := by
  simp [DHT.findProviders, DHT.findProvidersLoop, send, SH.read, decodeResponse,
        decodeDHTResponse, SH.close, hOK]

/-- Witness for C2 at a concrete stream with a trailing frame. -/
theorem findProviders_end_clean_witness :
    DHT.findProviders (JsVal.cid [1]) 1
        (Frame.resp okEnv :: Frame.dht ⟨DHTType.VALUE, some ⟨[5], []⟩, none⟩ ::
         Frame.dht ⟨DHTType.VALUE, some ⟨[6], []⟩, none⟩ ::
         Frame.dht ⟨DHTType.END, none, none⟩ :: [valFrame 7]) =
      ⟨some { mkRequest RequestType.DHT with
          dht := some ⟨DHTRequestType.FIND_PROVIDERS, none, none, none, some [1], some 1⟩ },
       [⟨[5], []⟩, ⟨[6], []⟩],
       Except.ok (),
       some ⟨[valFrame 7], 4, true⟩⟩ :=
  findProviders_end_clean [1] 1 okEnv ⟨[5], []⟩ ⟨[6], []⟩ [valFrame 7] rfl

/-- Claim C3: a findProviders run over [OK envelope, VALUE, d] where d
is a DHT stream frame of any kind other than VALUE or END yields
exactly one result and then fails with ERR_UNEXPECTED_MESSAGE_RECEIVED,
the handle being closed when the error is surfaced. -/
theorem findProviders_unexpected_kind
    (c : List Nat) (count : Nat) (r : ResponseMsg) (p : PeerMsg) (d : DHTResponseMsg)
    (hOK : r.type = ResponseType.OK)
    (hv : d.type ≠ DHTType.VALUE) (he : d.type ≠ DHTType.END) :
    DHT.findProviders (JsVal.cid c) count
        [Frame.resp r, Frame.dht ⟨DHTType.VALUE, some p, none⟩, Frame.dht d] =
      ⟨some { mkRequest RequestType.DHT with
          dht := some ⟨DHTRequestType.FIND_PROVIDERS, none, none, none, some c, some count⟩ },
       [⟨p.id, p.addrs⟩],
       Except.error ⟨ErrorCode.ERR_UNEXPECTED_MESSAGE_RECEIVED, "unexpected message received"⟩,
       some ⟨[], 3, true⟩⟩ := by
  rcases d with ⟨dt, dp, dv⟩
  cases dt with
  | BEGIN =>
    simp [DHT.findProviders, DHT.findProvidersLoop, send, SH.read, decodeResponse,
          decodeDHTResponse, SH.close, hOK]
  | VALUE => exact absurd rfl hv
  | END => exact absurd rfl he

/-- Witness for C3 with a BEGIN-typed garbage frame. -/
theorem findProviders_unexpected_kind_witness :
    DHT.findProviders (JsVal.cid [1]) 1
        [Frame.resp okEnv, Frame.dht ⟨DHTType.VALUE, some ⟨[5], []⟩, none⟩,
         Frame.dht ⟨DHTType.BEGIN, none, none⟩] =
      ⟨some { mkRequest RequestType.DHT with
          dht := some ⟨DHTRequestType.FIND_PROVIDERS, none, none, none, some [1], some 1⟩ },
       [⟨[5], []⟩],
       Except.error ⟨ErrorCode.ERR_UNEXPECTED_MESSAGE_RECEIVED, "unexpected message received"⟩,
       some ⟨[], 3, true⟩⟩ :=
  findProviders_unexpected_kind [1] 1 okEnv ⟨[5], []⟩ ⟨DHTType.BEGIN, none, none⟩ rfl
    (by simp) (by simp)

/-- Claim C5: dht.put rejects a non-byte-sequence key with
ERR_INVALID_KEY and a non-byte-sequence value with ERR_INVALID_VALUE,
in both cases with no request dispatched and no connection opened
(request = none and sh = none); in particular put(123, value) never
opens a connection. -/
theorem put_validation_precedes_io :
    (∀ key value incoming, key.isBytes = false →
       DHT.put key value incoming =
         ⟨Except.error ⟨ErrorCode.ERR_INVALID_KEY, "invalid key received"⟩, none, none⟩) ∧
    (∀ key value incoming, key.isBytes = true → value.isBytes = false →
       DHT.put key value incoming =
         ⟨Except.error ⟨ErrorCode.ERR_INVALID_VALUE, "value received is not a Uint8Array"⟩,
          none, none⟩) ∧
    (∀ value incoming, (DHT.put (JsVal.num 123) value incoming).sh = none ∧
       (DHT.put (JsVal.num 123) value incoming).result =
         Except.error ⟨ErrorCode.ERR_INVALID_KEY, "invalid key received"⟩) := by
  refine ⟨?_, ?_, ?_⟩
  · intro key value incoming h
    cases key <;> simp [JsVal.isBytes] at h <;> simp [DHT.put]
  · intro key value incoming hk hv
    cases key <;> simp [JsVal.isBytes] at hk
    cases value <;> simp [JsVal.isBytes] at hv <;> simp [DHT.put]
  · intro value incoming
    cases value <;> simp [DHT.put]

/-- Witness for C5: put(123, bytes) fails with ERR_INVALID_KEY and
neither dispatches a request nor opens a connection. -/
theorem put_validation_precedes_io_witness :
    DHT.put (JsVal.num 123) (JsVal.bytes [1]) [] =
      ⟨Except.error ⟨ErrorCode.ERR_INVALID_KEY, "invalid key received"⟩, none, none⟩ :=
  put_validation_precedes_io.1 (JsVal.num 123) (JsVal.bytes [1]) [] rfl

/-- Claim C6: a failed connect raises ERR_CONNECT_FAILED whose message
is the daemon-supplied one verbatim when present and nonempty, the
literal "unspecified" when the error description is absent or empty,
and "unspecified" when no response frame was received at all. -/
theorem connect_error_message
    (pid : List Nat) (xs : List JsVal) (hall : xs.all JsVal.isMultiaddr = true) :
    (Client.connect (JsVal.peerId pid) (JsVal.arr xs) []).result =
        Except.error ⟨ErrorCode.ERR_CONNECT_FAILED, "unspecified"⟩ ∧
    (∀ r rest m, r.type ≠ ResponseType.OK → r.error = some ⟨some m⟩ → m ≠ "" →
       (Client.connect (JsVal.peerId pid) (JsVal.arr xs) (Frame.resp r :: rest)).result =
         Except.error ⟨ErrorCode.ERR_CONNECT_FAILED, m⟩) ∧
    (∀ r rest, r.type ≠ ResponseType.OK →
       (r.error = none ∨ r.error = some ⟨none⟩ ∨ r.error = some ⟨some ""⟩) →
       (Client.connect (JsVal.peerId pid) (JsVal.arr xs) (Frame.resp r :: rest)).result =
         Except.error ⟨ErrorCode.ERR_CONNECT_FAILED, "unspecified"⟩) := by
  refine ⟨?_, ?_, ?_⟩
  · simp [Client.connect, hall, send, SH.read]
  · intro r rest m hErr hMsg hm
    simp [Client.connect, hall, send, SH.read, decodeResponse, hErr, connectErrorMsg, hMsg, hm]
  · intro r rest hErr hcase
    rcases hcase with h | h | h <;>
      simp [Client.connect, hall, send, SH.read, decodeResponse, hErr, connectErrorMsg, h]

/-- Witness for C6: no response at all, a daemon message "boom", an
absent error description. -/
theorem connect_error_message_witness :
    (Client.connect (JsVal.peerId [1]) (JsVal.arr []) []).result =
        Except.error ⟨ErrorCode.ERR_CONNECT_FAILED, "unspecified"⟩ ∧
    (Client.connect (JsVal.peerId [1]) (JsVal.arr []) [Frame.resp errEnv]).result =
        Except.error ⟨ErrorCode.ERR_CONNECT_FAILED, "boom"⟩ ∧
    (Client.connect (JsVal.peerId [1]) (JsVal.arr [])
        [Frame.resp ⟨ResponseType.ERROR, none, none, [], none, none⟩]).result =
      Except.error ⟨ErrorCode.ERR_CONNECT_FAILED, "unspecified"⟩ :=
  ⟨(connect_error_message [1] [] rfl).1,
   (connect_error_message [1] [] rfl).2.1 errEnv [] "boom" (by simp [errEnv]) rfl (by simp),
   (connect_error_message [1] [] rfl).2.2 ⟨ResponseType.ERROR, none, none, [], none, none⟩ []
     (by simp) (Or.inl rfl)⟩

/-- Claim C7: openStream with a valid peer id and protocol string, on
an OK envelope, returns the remaining raw bytes of the connection
(sh.rest()) without closing the handle; on a non-OK envelope it closes
the handle and raises ERR_OPEN_STREAM_FAILED. -/
theorem openStream_behavior
    (pid : List Nat) (proto : String) (r : ResponseMsg) (rest : List Frame) :
    (r.type = ResponseType.OK →
       Client.openStream (JsVal.peerId pid) (JsVal.str proto) (Frame.resp r :: rest) =
         ⟨Except.ok rest,
          some { mkRequest RequestType.STREAM_OPEN with streamOpen := some ⟨pid, [proto]⟩ },
          some ⟨rest, 1, false⟩⟩) ∧
    (∀ e, r.type ≠ ResponseType.OK → r.error = some e →
       Client.openStream (JsVal.peerId pid) (JsVal.str proto) (Frame.resp r :: rest) =
         ⟨Except.error ⟨ErrorCode.ERR_OPEN_STREAM_FAILED, e.msg.getD ""⟩,
          some { mkRequest RequestType.STREAM_OPEN with streamOpen := some ⟨pid, [proto]⟩ },
          some ⟨rest, 1, true⟩⟩) := by
  constructor
  · intro hOK
    simp [Client.openStream, send, SH.read, decodeResponse, hOK]
  · intro e hErr hMsg
    simp [Client.openStream, send, SH.read, decodeResponse, hErr, codedError, hMsg, SH.close]

/-- Witness for C7 at an OK envelope and at an ERROR envelope. -/
theorem openStream_behavior_witness :
    Client.openStream (JsVal.peerId [1]) (JsVal.str "/echo") [Frame.resp okEnv, valFrame 9] =
      ⟨Except.ok [valFrame 9],
       some { mkRequest RequestType.STREAM_OPEN with streamOpen := some ⟨[1], ["/echo"]⟩ },
       some ⟨[valFrame 9], 1, false⟩⟩ ∧
    Client.openStream (JsVal.peerId [1]) (JsVal.str "/echo") [Frame.resp errEnv] =
      ⟨Except.error ⟨ErrorCode.ERR_OPEN_STREAM_FAILED, "boom"⟩,
       some { mkRequest RequestType.STREAM_OPEN with streamOpen := some ⟨[1], ["/echo"]⟩ },
       some ⟨[], 1, true⟩⟩ :=
  ⟨(openStream_behavior [1] "/echo" okEnv [valFrame 9]).1 rfl,
   (openStream_behavior [1] "/echo" errEnv []).2 ⟨some "boom"⟩ (by simp [errEnv]) rfl⟩

/-- Claim C4 (code-bug evidence): subscribe on an initial ERROR
envelope returns no generator (zero messages) and throws the daemon's
message under the code ERR_PUBSUB_PUBLISH_FAILED copy-pasted from
publish, not a subscribe-specific code. -/
theorem subscribe_error_publish_code :
    Pubsub.subscribe (JsVal.str "topic") [Frame.resp errEnv] =
      ⟨some { mkRequest RequestType.PUBSUB with
          pubsub := some ⟨PSRequestType.SUBSCRIBE, some "topic", none⟩ },
       Except.error ⟨ErrorCode.ERR_PUBSUB_PUBLISH_FAILED, "boom"⟩,
       some ⟨[], 1, false⟩⟩ := by
  rfl

/-- Claim C1 counterexample: identify reads an ERROR envelope and
surfaces the error while the final handle is NOT closed, refuting the
claim that every listed operation closes the handle before surfacing
the error. -/
theorem identify_error_handle_left_open :
    isError (Client.identify [Frame.resp errEnv]).result = true ∧
    (Client.identify [Frame.resp errEnv]).sh = some ⟨[], 1, false⟩ := by
  exact ⟨rfl, rfl⟩

/-- Claim C1 (amended): on an initial ERROR envelope every listed
operation surfaces an error having read exactly one frame (the rest of
the queue is untouched, so no stream-specific frame is read after the
ERROR envelope); registerStreamHandler and all DHT operations close
the handle before the error is surfaced, while connect, identify,
listPeers and pubsub subscribe leave the handle open. -/
theorem error_envelope_discipline
    (r : ResponseMsg) (hErr : r.type ≠ ResponseType.OK) (rest : List Frame)
    (a proto t : String) (pid kb vb c : List Nat) (xs : List JsVal)
    (hall : xs.all JsVal.isMultiaddr = true) (count : Nat) :
    (isError (Client.registerStreamHandler (JsVal.addr a) (JsVal.str proto)
        (Frame.resp r :: rest)).result = true ∧
     (Client.registerStreamHandler (JsVal.addr a) (JsVal.str proto)
        (Frame.resp r :: rest)).sh = some ⟨rest, 1, true⟩) ∧
    (isError (DHT.put (JsVal.bytes kb) (JsVal.bytes vb) (Frame.resp r :: rest)).result = true ∧
     (DHT.put (JsVal.bytes kb) (JsVal.bytes vb) (Frame.resp r :: rest)).sh =
       some ⟨rest, 1, true⟩) ∧
    (isError (DHT.get (JsVal.bytes kb) (Frame.resp r :: rest)).result = true ∧
     (DHT.get (JsVal.bytes kb) (Frame.resp r :: rest)).sh = some ⟨rest, 1, true⟩) ∧
    (isError (DHT.findPeer (JsVal.peerId pid) (Frame.resp r :: rest)).result = true ∧
     (DHT.findPeer (JsVal.peerId pid) (Frame.resp r :: rest)).sh = some ⟨rest, 1, true⟩) ∧
    (isError (DHT.provide (JsVal.cid c) (Frame.resp r :: rest)).result = true ∧
     (DHT.provide (JsVal.cid c) (Frame.resp r :: rest)).sh = some ⟨rest, 1, true⟩) ∧
    (isError (DHT.getPublicKey (JsVal.peerId pid) (Frame.resp r :: rest)).result = true ∧
     (DHT.getPublicKey (JsVal.peerId pid) (Frame.resp r :: rest)).sh = some ⟨rest, 1, true⟩) ∧
    (isError (DHT.findProviders (JsVal.cid c) count (Frame.resp r :: rest)).outcome = true ∧
     (DHT.findProviders (JsVal.cid c) count (Frame.resp r :: rest)).yielded = [] ∧
     (DHT.findProviders (JsVal.cid c) count (Frame.resp r :: rest)).sh = some ⟨rest, 1, true⟩) ∧
    (isError (DHT.getClosestPeers (JsVal.bytes kb) (Frame.resp r :: rest)).outcome = true ∧
     (DHT.getClosestPeers (JsVal.bytes kb) (Frame.resp r :: rest)).yielded = [] ∧
     (DHT.getClosestPeers (JsVal.bytes kb) (Frame.resp r :: rest)).sh = some ⟨rest, 1, true⟩) ∧
    (isError (Client.connect (JsVal.peerId pid) (JsVal.arr xs)
        (Frame.resp r :: rest)).result = true ∧
     (Client.connect (JsVal.peerId pid) (JsVal.arr xs) (Frame.resp r :: rest)).sh =
       some ⟨rest, 1, false⟩) ∧
    (isError (Client.identify (Frame.resp r :: rest)).result = true ∧
     (Client.identify (Frame.resp r :: rest)).sh = some ⟨rest, 1, false⟩) ∧
    (isError (Client.listPeers (Frame.resp r :: rest)).result = true ∧
     (Client.listPeers (Frame.resp r :: rest)).sh = some ⟨rest, 1, false⟩) ∧
    (isError (Pubsub.subscribe (JsVal.str t) (Frame.resp r :: rest)).result = true ∧
     (Pubsub.subscribe (JsVal.str t) (Frame.resp r :: rest)).sh = some ⟨rest, 1, false⟩) := by
  refine ⟨⟨?_, ?_⟩, ⟨?_, ?_⟩, ⟨?_, ?_⟩, ⟨?_, ?_⟩, ⟨?_, ?_⟩, ⟨?_, ?_⟩, ⟨?_, ?_, ?_⟩,
    ⟨?_, ?_, ?_⟩, ⟨?_, ?_⟩, ⟨?_, ?_⟩, ⟨?_, ?_⟩, ⟨?_, ?_⟩⟩ <;>
    simp [Client.registerStreamHandler, DHT.put, DHT.get, DHT.findPeer, DHT.provide,
          DHT.getPublicKey, DHT.findProviders, DHT.getClosestPeers, Client.connect,
          Client.identify, Client.listPeers, Pubsub.subscribe, send, SH.read,
          decodeResponse, SH.close, hErr, hall, codedError, isError]

/-- Witness for the amended C1: the registerStreamHandler conjunct at
concrete arguments and the concrete ERROR envelope. -/
theorem error_envelope_discipline_witness :
    isError (Client.registerStreamHandler (JsVal.addr "/a") (JsVal.str "/p")
        [Frame.resp errEnv]).result = true ∧
    (Client.registerStreamHandler (JsVal.addr "/a") (JsVal.str "/p")
        [Frame.resp errEnv]).sh = some ⟨[], 1, true⟩ :=
  (error_envelope_discipline errEnv (by decide) [] "/a" "/p" "t" [1] [2] [3] [4] []
    rfl 1).1

/-- The request dispatched by findProviders, for any incoming frames:
DHT/FIND_PROVIDERS with the cid bytes and the count argument. -/
theorem findProviders_request (c : List Nat) (cnt : Nat) (fr : List Frame) :
    (DHT.findProviders (JsVal.cid c) cnt fr).request =
      some { mkRequest RequestType.DHT with
        dht := some ⟨DHTRequestType.FIND_PROVIDERS, none, none, none, some c, some cnt⟩ } := by
  cases fr with
  | nil => simp [DHT.findProviders, send, SH.read, decodeResponse]
  | cons f rest =>
    cases f with
    | resp r =>
      by_cases h : r.type = ResponseType.OK
      · rcases hfp : DHT.findProvidersLoop rest [] 1 with ⟨ys, out, shF⟩
        simp [DHT.findProviders, send, SH.read, decodeResponse, h, hfp]
      · simp [DHT.findProviders, send, SH.read, decodeResponse, h]
    | dht d => simp [DHT.findProviders, send, SH.read, decodeResponse]
    | ps m => simp [DHT.findProviders, send, SH.read, decodeResponse]

/-- Claim C8: two findProviders runs over the same incoming frame
stream but different counts yield identical results, outcome and final
handle state: count reaches only the encoded request (whose count field
is exactly the argument), the client keeps decoding until END
regardless of count, and the number of yielded results is not bounded
by count (a 2-VALUE stream with count 1 yields 2 results). -/
theorem findProviders_count_independent (c : List Nat) (c₁ c₂ : Nat) (fr : List Frame) :
    ((DHT.findProviders (JsVal.cid c) c₁ fr).yielded =
       (DHT.findProviders (JsVal.cid c) c₂ fr).yielded ∧
     (DHT.findProviders (JsVal.cid c) c₁ fr).outcome =
       (DHT.findProviders (JsVal.cid c) c₂ fr).outcome ∧
     (DHT.findProviders (JsVal.cid c) c₁ fr).sh =
       (DHT.findProviders (JsVal.cid c) c₂ fr).sh) ∧
    (((DHT.findProviders (JsVal.cid c) c₁ fr).request.bind RequestMsg.dht).bind
        DHTRequestMsg.count = some c₁ ∧
     ((DHT.findProviders (JsVal.cid c) c₂ fr).request.bind RequestMsg.dht).bind
        DHTRequestMsg.count = some c₂) ∧
    (DHT.findProviders (JsVal.cid c) 1
        [Frame.resp okEnv, valFrame 5, valFrame 6, endFrame]).yielded.length = 2 := by
  refine ⟨?_, ⟨?_, ?_⟩, ?_⟩
  · cases fr with
    | nil => simp [DHT.findProviders, send, SH.read, decodeResponse]
    | cons f rest =>
      cases f with
      | resp r =>
        by_cases h : r.type = ResponseType.OK
        · rcases hfp : DHT.findProvidersLoop rest [] 1 with ⟨ys, out, shF⟩
          simp [DHT.findProviders, send, SH.read, decodeResponse, h, hfp]
        · simp [DHT.findProviders, send, SH.read, decodeResponse, h]
      | dht d => simp [DHT.findProviders, send, SH.read, decodeResponse]
      | ps m => simp [DHT.findProviders, send, SH.read, decodeResponse]
  · simp [findProviders_request]
  · simp [findProviders_request]
  · simp [DHT.findProviders, DHT.findProvidersLoop, send, SH.read, decodeResponse,
          decodeDHTResponse, okEnv, valFrame, endFrame]

/-- The listener bookkeeping invariant: the listeners actually running
are exactly the one tracked by `this.listener`, preserved by every
listener operation sequence from a given conforming state. -/
theorem runListener_inv (ops : List ListenerOp) (st : ClientListeners)
    (h : st.running = st.tracked.toList) :
    (ops.foldl stepListener st).running = (ops.foldl stepListener st).tracked.toList := by
  induction ops generalizing st with
  | nil => exact h
  | cons op ops ih =>
    refine ih _ ?_
    rcases st with ⟨tr, run⟩
    cases op with
    | start id =>
      cases tr with
      | none => simp at h; simp [stepListener, startClient, closeClient, h]
      | some l =>
        simp at h
        simp [stepListener, startClient, closeClient, h]
    | close =>
      cases tr with
      | none => simpa [stepListener, closeClient] using h
      | some l =>
        simp at h
        simp [stepListener, closeClient, h]
    | registerStreamHandler => exact h

/-- Claim C9: after any sequence of start/close/registerStreamHandler
operations the client has at most one running listener, and starting a
new listener always leaves exactly the new one running
(last-registration-wins: the previous listener is stopped first). -/
theorem at_most_one_listener (ops : List ListenerOp) :
    (runListenerOps ops).running.length ≤ 1 ∧
    (∀ id, (runListenerOps (ops ++ [ListenerOp.start id])).running = [id]) := by
  have h : (runListenerOps ops).running = (runListenerOps ops).tracked.toList :=
    runListener_inv ops initListeners (by simp [initListeners])
  constructor
  · rw [h]
    have hlen : ∀ o : Option Nat, o.toList.length ≤ 1 := by
      intro o; cases o <;> simp
    exact hlen _
  · intro id
    have h2 : runListenerOps (ops ++ [ListenerOp.start id]) =
        stepListener (runListenerOps ops) (ListenerOp.start id) := by
      simp [runListenerOps, List.foldl_append]
    rw [h2]
    rcases hst : runListenerOps ops with ⟨tr, run⟩
    rw [hst] at h
    cases tr with
    | none => simp at h; simp [stepListener, startClient, closeClient, h]
    | some l =>
      simp at h
      simp [stepListener, startClient, closeClient, h]

/-- Full run of the subscription generator loop over a queue of pubsub
message frames: every message is yielded in order and the loop then
fails decoding the end-of-stream marker. -/
theorem subscribeGenLoop_ps (msgs : List PSMessage) (acc : List PSMessage) (n : Nat) :
    Pubsub.subscribeGenLoop (msgs.map Frame.ps) acc n =
      ⟨acc ++ msgs, Except.error ⟨ErrorCode.DECODE_FAILED, "protobuf decode failed"⟩,
       ⟨[], n + msgs.length + 1, false⟩⟩ := by
  induction msgs generalizing acc n with
  | nil => simp [Pubsub.subscribeGenLoop]
  | cons m ms ih =>
    simp [Pubsub.subscribeGenLoop, decodePSMessage, ih]
    omega

/-- The subscription generator loop never completes gracefully and
never closes the handle, whatever frames arrive. -/
theorem subscribeGenLoop_never_ends (frames : List Frame) (acc : List PSMessage) (n : Nat) :
    isError (Pubsub.subscribeGenLoop frames acc n).outcome = true ∧
    (Pubsub.subscribeGenLoop frames acc n).sh.closed = false := by
  induction frames generalizing acc n with
  | nil => simp [Pubsub.subscribeGenLoop, isError]
  | cons f rest ih =>
    cases f with
    | resp r => simp [Pubsub.subscribeGenLoop, decodePSMessage, isError]
    | dht d => simp [Pubsub.subscribeGenLoop, decodePSMessage, isError]
    | ps m =>
      simpa [Pubsub.subscribeGenLoop, decodePSMessage] using ih _ _

/-- Claim C10: the generator returned by pubsub subscribe reads one
frame per iteration and yields its decode, never closes the handle and
never signals a graceful end: consuming a connection carrying only
pubsub message frames yields them all and then surfaces a decode error
on the end-of-stream marker (one read per message plus the final
failing read); for arbitrary frames the loop still never completes
gracefully and never closes the handle. -/
theorem subscribe_generator_no_termination (msgs : List PSMessage) (n : Nat) :
    Pubsub.subscribeGen ⟨msgs.map Frame.ps, n, false⟩ =
      ⟨msgs, Except.error ⟨ErrorCode.DECODE_FAILED, "protobuf decode failed"⟩,
       ⟨[], n + msgs.length + 1, false⟩⟩ ∧
    (∀ frames acc reads, isError (Pubsub.subscribeGenLoop frames acc reads).outcome = true ∧
       (Pubsub.subscribeGenLoop frames acc reads).sh.closed = false) := by
  constructor
  · simpa [Pubsub.subscribeGen] using subscribeGenLoop_ps msgs [] n
  · intro frames acc reads
    exact subscribeGenLoop_never_ends frames acc reads

end DaemonClient
